import Mathlib

/-!
Shallow embedding of the `polydraft-purchase` Anchor program
(`src/programs/polydraft-purchase/src/lib.rs`).

The program exposes a single instruction `buy_pack(client_seed, amount)`:
it validates the request, transfers `amount` USDC from the buyer's token
account to the treasury's token account, and records an immutable
`PurchaseReceipt` in a program-derived account whose address is derived
from `("purchase", buyer, client_seed)`.

Account keys are modelled as their base58 strings.  Token amounts and
lamports are `Nat` with explicit `2^64` bounds where the on-chain code
performs checked arithmetic.  The whole instruction is one atomic
transaction: it either returns a new chain state, or an error and the
previous state stands unchanged.
-/

namespace Polydraft

/-- An account key (base58 string form). -/
abbrev Pubkey := String

/-- `declare_id!("2kFruWkndEjnMJkFR5dkKbLjuCpoZ2nx3rHx9KFutKx1")` in lib.rs. -/
def PROGRAM_ID : Pubkey := "2kFruWkndEjnMJkFR5dkKbLjuCpoZ2nx3rHx9KFutKx1"

/-- USDC mint on mainnet-beta (`USDC_MINT` constant, lib.rs line 7). -/
def USDC_MINT : Pubkey := "EPjFWdd5AufqSSqeM2qN1xzybapC8G4wEGGkZwyTDt1v"

/-- Treasury wallet that receives USDC payments (`TREASURY`, lib.rs line 10). -/
def TREASURY : Pubkey := "FJASGessZXm5n3DWvcNEMxkbwi7wvx8XjezY5xoXsAMD"

/-- Modulus of the `u64` machine integers used for token amounts. -/
def U64_MOD : Nat := 2 ^ 64

/-- Byte length of a Rust `String` (`client_seed.len()` counts UTF-8 bytes). -/
def seedByteLen (s : String) : Nat := s.utf8ByteSize

/-- An SPL token account, as far as the program reads it: its mint,
its owner (authority) and its balance. -/
structure TokenAccount where
  mint : Pubkey
  owner : Pubkey
  amount : Nat
deriving DecidableEq

/-- The persisted receipt record (`PurchaseReceipt` in lib.rs). -/
structure PurchaseReceipt where
  buyer : Pubkey
  amount : Nat
  client_seed : String
  timestamp : Int
  bump : Nat
deriving DecidableEq

/-- `InitSpace` for `PurchaseReceipt`: 32 (buyer) + 8 (amount)
+ 4 + 32 (length-prefixed seed, max 32) + 8 (timestamp) + 1 (bump). -/
def PurchaseReceipt.INIT_SPACE : Nat := 32 + 8 + (4 + 32) + 8 + 1

/-- `space = 8 + PurchaseReceipt::INIT_SPACE` (8-byte account discriminator). -/
def RECEIPT_SPACE : Nat := 8 + PurchaseReceipt.INIT_SPACE

/-- A program-derived address.  Modelled from the spec: the derivation is a
pure, deterministic, collision-resistant function of the domain tag, the
buyer key, the correlation tag and the program id; we model the
collision-resistant hash as a perfectly injective one, i.e. the address
is the derivation input itself. -/
structure PdaAddress where
  domain : String
  buyer : Pubkey
  seed : String
  programId : Pubkey
deriving DecidableEq

/-- Modelled from the spec: `find_program_address` of the ledger runtime
(not part of this repository's sources).  It deterministically derives an
address and a small integer bump from the seed list and the program id;
the bump is searched from a fixed starting point (255) and in this model
the first candidate is always acceptable. -/
def findProgramAddress (domain : String) (buyer : Pubkey) (seed : String)
    (programId : Pubkey) : PdaAddress × Nat :=
  (⟨domain, buyer, seed, programId⟩, 255)

/-- Address of the receipt PDA for a given buyer and client seed:
`seeds = [b"purchase", buyer.key().as_ref(), client_seed.as_bytes()]`. -/
def receiptAddress (buyer : Pubkey) (seed : String) : PdaAddress :=
  (findProgramAddress "purchase" buyer seed PROGRAM_ID).1

/-- The canonical bump for the receipt PDA (`ctx.bumps.receipt`). -/
def receiptBump (buyer : Pubkey) (seed : String) : Nat :=
  (findProgramAddress "purchase" buyer seed PROGRAM_ID).2

/-- The program's own error codes (`PurchaseError` in lib.rs). -/
inductive PurchaseError
  | SeedTooLong
  | ZeroAmount
  | InvalidMint
  | InvalidTreasury
deriving DecidableEq

/-- Every way the `buy_pack` transaction can fail: the program's own
errors, the Anchor token-account constraint failures, failures surfaced
by the SPL token transfer, and failures of the storage allocation. -/
inductive TxError
  | program (e : PurchaseError)
  | constraintTokenMint
  | constraintTokenAuthority
  | insufficientFunds
  | amountOverflow
  | accountAlreadyInUse
  | insufficientLamports
deriving DecidableEq

/-- Observable side-effecting steps inside one invocation, in the order
they are executed; used to state ordering properties. -/
inductive Event
  | transferred (amount : Nat)
  | allocated (address : PdaAddress)
deriving DecidableEq

/-- The slice of ledger state the instruction touches: the two token
accounts, the receipt accounts owned by the program, the buyer's lamport
balance (the buyer pays the allocation) and the aggregated lamports of
every other account. -/
structure Chain where
  buyerUsdc : TokenAccount
  treasuryUsdc : TokenAccount
  receipts : List (PdaAddress × PurchaseReceipt)
  buyerLamports : Nat
  otherLamports : Nat
deriving DecidableEq

/-- Look up the receipt allocated at an address, if any. -/
def lookupReceipt (rs : List (PdaAddress × PurchaseReceipt)) (a : PdaAddress) :
    Option PurchaseReceipt :=
  match rs with
  | [] => none
  | (a₁, r) :: rest => if a₁ = a then some r else lookupReceipt rest a

/-- Number of receipts allocated at an address. -/
def receiptCount (rs : List (PdaAddress × PurchaseReceipt)) (a : PdaAddress) : Nat :=
  rs.countP (fun p => decide (p.1 = a))

/-- The full `buy_pack` transaction (lib.rs lines 16-38 together with the
`BuyPack` accounts struct, lines 45-86), as one atomic state transition.
Inputs: the signing buyer, the instruction arguments `client_seed` and
`amount`, the key passed as the `usdc_mint` account, the commit-time
clock, and the rent cost function of the storage facility (modelled from
the spec: rent is charged per allocated record size, paid by `payer = buyer`).

Steps, in the order the spec fixes (Validator → Transfer → Receipt
Recorder):
1. `require!(client_seed.len() <= 32, SeedTooLong)`
2. `require!(amount > 0, ZeroAmount)`
3. constraint `usdc_mint.key() == USDC_MINT` (`InvalidMint`)
4. constraint `treasury_usdc.owner == TREASURY` (`InvalidTreasury`)
5. token-account constraints on `buyer_usdc` / `treasury_usdc`
   (`token::mint = usdc_mint`, `token::authority = buyer`)
6. `token::transfer` CPI: fails on insufficient source balance or
   destination overflow, otherwise moves `amount`
7. `init` of the receipt PDA: fails if the derived address is already
   occupied, charges rent to the buyer, then the body populates the fields.
The returned event list records the side-effecting steps that executed
before the outcome was decided (the runtime rolls them back on error). -/
def buy_pack (rent : Nat → Nat) (buyer : Pubkey) (client_seed : String)
    (amount : Nat) (usdcMintKey : Pubkey) (now : Int) (st : Chain) :
    List Event × Except TxError Chain :=
  if 32 < seedByteLen client_seed then
    ([], .error (.program .SeedTooLong))
  else if amount = 0 then
    ([], .error (.program .ZeroAmount))
  else if usdcMintKey ≠ USDC_MINT then
    ([], .error (.program .InvalidMint))
  else if st.treasuryUsdc.owner ≠ TREASURY then
    ([], .error (.program .InvalidTreasury))
  else if st.buyerUsdc.mint ≠ usdcMintKey then
    ([], .error .constraintTokenMint)
  else if st.buyerUsdc.owner ≠ buyer then
    ([], .error .constraintTokenAuthority)
  else if st.treasuryUsdc.mint ≠ usdcMintKey then
    ([], .error .constraintTokenMint)
  else if st.buyerUsdc.amount < amount then
    ([], .error .insufficientFunds)
  else if U64_MOD ≤ st.treasuryUsdc.amount + amount then
    ([], .error .amountOverflow)
  else if (lookupReceipt st.receipts (receiptAddress buyer client_seed)).isSome then
    ([.transferred amount], .error .accountAlreadyInUse)
  else if st.buyerLamports < rent RECEIPT_SPACE then
    ([.transferred amount], .error .insufficientLamports)
  else
    ([.transferred amount, .allocated (receiptAddress buyer client_seed)],
     .ok
      { buyerUsdc := { st.buyerUsdc with amount := st.buyerUsdc.amount - amount }
        treasuryUsdc :=
          { st.treasuryUsdc with amount := st.treasuryUsdc.amount + amount }
        receipts :=
          (receiptAddress buyer client_seed,
            { buyer := buyer, amount := amount, client_seed := client_seed,
              timestamp := now, bump := receiptBump buyer client_seed })
            :: st.receipts
        buyerLamports := st.buyerLamports - rent RECEIPT_SPACE
        otherLamports := st.otherLamports })

/-- The state the ledger commits after a run: the new state on success,
the untouched previous state on any error (all-or-nothing rollback). -/
def commit (st : Chain) (r : List Event × Except TxError Chain) : Chain :=
  match r.2 with
  | .ok st' => st'
  | .error _ => st

/-- The receipt address for an empty client seed, as a function of the
buyer alone (the domain tag and program id are constants). -/
def emptyTagAddress (b : Pubkey) : PdaAddress :=
  ⟨"purchase", b, "", PROGRAM_ID⟩

/-- A concrete buyer key used in the evaluation examples. -/
def demoBuyer : Pubkey := "BuYeR11111111111111111111111111111111111111"

/-- A concrete rent schedule used in the evaluation examples. -/
def demoRent : Nat → Nat := fun n => n

/-- A concrete well-formed starting state: buyer holds 100 USDC,
treasury holds 0, no receipt exists yet. -/
def demoState : Chain :=
  { buyerUsdc := { mint := USDC_MINT, owner := demoBuyer, amount := 100 }
    treasuryUsdc := { mint := USDC_MINT, owner := TREASURY, amount := 0 }
    receipts := []
    buyerLamports := 1000
    otherLamports := 500 }

/-- The receipt produced by the demo purchase of 40 USDC with tag "order-1". -/
def demoReceipt : PurchaseReceipt :=
  { buyer := demoBuyer, amount := 40, client_seed := "order-1",
    timestamp := 1700000000, bump := receiptBump demoBuyer "order-1" }

/-- The state after the demo purchase commits: buyer at 60, treasury at
40, one receipt allocated, rent (93 lamports) charged to the buyer. -/
def demoState₂ : Chain :=
  { buyerUsdc := { mint := USDC_MINT, owner := demoBuyer, amount := 60 }
    treasuryUsdc := { mint := USDC_MINT, owner := TREASURY, amount := 40 }
    receipts := [(receiptAddress demoBuyer "order-1", demoReceipt)]
    buyerLamports := 907
    otherLamports := 500 }

/-- A 33-byte correlation tag. -/
def longTag : String := "aaaaaaaaaaaaaaaaaaaaaaaaaaaaaaaaa"

/-- A mint key different from the canonical USDC mint, used in examples. -/
def bogusMint : Pubkey := "BogusMint1111111111111111111111111111111111"

/-- A state whose treasury token account is owned by someone other than
the canonical treasury. -/
def demoStateBadOwner : Chain :=
  { demoState with
      treasuryUsdc := { mint := USDC_MINT, owner := demoBuyer, amount := 0 } }

/-- The state a successful `buy_pack` run produces, written out. -/
def successState (rent : Nat → Nat) (buyer : Pubkey) (client_seed : String)
    (amount : Nat) (now : Int) (st : Chain) : Chain :=
  { buyerUsdc := { st.buyerUsdc with amount := st.buyerUsdc.amount - amount }
    treasuryUsdc := { st.treasuryUsdc with amount := st.treasuryUsdc.amount + amount }
    receipts :=
      (receiptAddress buyer client_seed,
        { buyer := buyer, amount := amount, client_seed := client_seed,
          timestamp := now, bump := receiptBump buyer client_seed })
        :: st.receipts
    buyerLamports := st.buyerLamports - rent RECEIPT_SPACE
    otherLamports := st.otherLamports }

theorem buy_pack_seedTooLong (rent : Nat → Nat) (b : Pubkey) (t : String)
    (a : Nat) (mk : Pubkey) (now : Int) (st : Chain)
    (h1 : 32 < seedByteLen t) :
    buy_pack rent b t a mk now st = ([], .error (.program .SeedTooLong)) := by
  unfold buy_pack
  rw [if_pos h1]

theorem buy_pack_zeroAmount (rent : Nat → Nat) (b : Pubkey) (t : String)
    (a : Nat) (mk : Pubkey) (now : Int) (st : Chain)
    (h1 : seedByteLen t ≤ 32) (h2 : a = 0) :
    buy_pack rent b t a mk now st = ([], .error (.program .ZeroAmount)) := by
  unfold buy_pack
  rw [if_neg (Nat.not_lt.mpr h1), if_pos h2]

theorem buy_pack_invalidMint (rent : Nat → Nat) (b : Pubkey) (t : String)
    (a : Nat) (mk : Pubkey) (now : Int) (st : Chain)
    (h1 : seedByteLen t ≤ 32) (h2 : 0 < a) (h3 : mk ≠ USDC_MINT) :
    buy_pack rent b t a mk now st = ([], .error (.program .InvalidMint)) := by
  unfold buy_pack
  rw [if_neg (Nat.not_lt.mpr h1), if_neg (Nat.pos_iff_ne_zero.mp h2), if_pos h3]

theorem buy_pack_invalidTreasury (rent : Nat → Nat) (b : Pubkey) (t : String)
    (a : Nat) (mk : Pubkey) (now : Int) (st : Chain)
    (h1 : seedByteLen t ≤ 32) (h2 : 0 < a) (h3 : mk = USDC_MINT)
    (h4 : st.treasuryUsdc.owner ≠ TREASURY) :
    buy_pack rent b t a mk now st = ([], .error (.program .InvalidTreasury)) := by
  unfold buy_pack
  rw [if_neg (Nat.not_lt.mpr h1), if_neg (Nat.pos_iff_ne_zero.mp h2),
    if_neg (not_not.mpr h3), if_pos h4]

theorem buy_pack_badBuyerMint (rent : Nat → Nat) (b : Pubkey) (t : String)
    (a : Nat) (mk : Pubkey) (now : Int) (st : Chain)
    (h1 : seedByteLen t ≤ 32) (h2 : 0 < a) (h3 : mk = USDC_MINT)
    (h4 : st.treasuryUsdc.owner = TREASURY) (h5 : st.buyerUsdc.mint ≠ mk) :
    buy_pack rent b t a mk now st = ([], .error .constraintTokenMint) := by
  unfold buy_pack
  rw [if_neg (Nat.not_lt.mpr h1), if_neg (Nat.pos_iff_ne_zero.mp h2),
    if_neg (not_not.mpr h3), if_neg (not_not.mpr h4), if_pos h5]

theorem buy_pack_badAuthority (rent : Nat → Nat) (b : Pubkey) (t : String)
    (a : Nat) (mk : Pubkey) (now : Int) (st : Chain)
    (h1 : seedByteLen t ≤ 32) (h2 : 0 < a) (h3 : mk = USDC_MINT)
    (h4 : st.treasuryUsdc.owner = TREASURY) (h5 : st.buyerUsdc.mint = mk)
    (h6 : st.buyerUsdc.owner ≠ b) :
    buy_pack rent b t a mk now st = ([], .error .constraintTokenAuthority) := by
  unfold buy_pack
  rw [if_neg (Nat.not_lt.mpr h1), if_neg (Nat.pos_iff_ne_zero.mp h2),
    if_neg (not_not.mpr h3), if_neg (not_not.mpr h4), if_neg (not_not.mpr h5),
    if_pos h6]

theorem buy_pack_badTreasuryMint (rent : Nat → Nat) (b : Pubkey) (t : String)
    (a : Nat) (mk : Pubkey) (now : Int) (st : Chain)
    (h1 : seedByteLen t ≤ 32) (h2 : 0 < a) (h3 : mk = USDC_MINT)
    (h4 : st.treasuryUsdc.owner = TREASURY) (h5 : st.buyerUsdc.mint = mk)
    (h6 : st.buyerUsdc.owner = b) (h7 : st.treasuryUsdc.mint ≠ mk) :
    buy_pack rent b t a mk now st = ([], .error .constraintTokenMint) := by
  unfold buy_pack
  rw [if_neg (Nat.not_lt.mpr h1), if_neg (Nat.pos_iff_ne_zero.mp h2),
    if_neg (not_not.mpr h3), if_neg (not_not.mpr h4), if_neg (not_not.mpr h5),
    if_neg (not_not.mpr h6), if_pos h7]

theorem buy_pack_insufficientFunds (rent : Nat → Nat) (b : Pubkey) (t : String)
    (a : Nat) (mk : Pubkey) (now : Int) (st : Chain)
    (h1 : seedByteLen t ≤ 32) (h2 : 0 < a) (h3 : mk = USDC_MINT)
    (h4 : st.treasuryUsdc.owner = TREASURY) (h5 : st.buyerUsdc.mint = mk)
    (h6 : st.buyerUsdc.owner = b) (h7 : st.treasuryUsdc.mint = mk)
    (h8 : st.buyerUsdc.amount < a) :
    buy_pack rent b t a mk now st = ([], .error .insufficientFunds) := by
  unfold buy_pack
  rw [if_neg (Nat.not_lt.mpr h1), if_neg (Nat.pos_iff_ne_zero.mp h2),
    if_neg (not_not.mpr h3), if_neg (not_not.mpr h4), if_neg (not_not.mpr h5),
    if_neg (not_not.mpr h6), if_neg (not_not.mpr h7), if_pos h8]

theorem buy_pack_overflow (rent : Nat → Nat) (b : Pubkey) (t : String)
    (a : Nat) (mk : Pubkey) (now : Int) (st : Chain)
    (h1 : seedByteLen t ≤ 32) (h2 : 0 < a) (h3 : mk = USDC_MINT)
    (h4 : st.treasuryUsdc.owner = TREASURY) (h5 : st.buyerUsdc.mint = mk)
    (h6 : st.buyerUsdc.owner = b) (h7 : st.treasuryUsdc.mint = mk)
    (h8 : a ≤ st.buyerUsdc.amount) (h9 : U64_MOD ≤ st.treasuryUsdc.amount + a) :
    buy_pack rent b t a mk now st = ([], .error .amountOverflow) := by
  unfold buy_pack
  rw [if_neg (Nat.not_lt.mpr h1), if_neg (Nat.pos_iff_ne_zero.mp h2),
    if_neg (not_not.mpr h3), if_neg (not_not.mpr h4), if_neg (not_not.mpr h5),
    if_neg (not_not.mpr h6), if_neg (not_not.mpr h7),
    if_neg (Nat.not_lt.mpr h8), if_pos h9]

theorem buy_pack_alreadyInUse (rent : Nat → Nat) (b : Pubkey) (t : String)
    (a : Nat) (mk : Pubkey) (now : Int) (st : Chain)
    (h1 : seedByteLen t ≤ 32) (h2 : 0 < a) (h3 : mk = USDC_MINT)
    (h4 : st.treasuryUsdc.owner = TREASURY) (h5 : st.buyerUsdc.mint = mk)
    (h6 : st.buyerUsdc.owner = b) (h7 : st.treasuryUsdc.mint = mk)
    (h8 : a ≤ st.buyerUsdc.amount) (h9 : st.treasuryUsdc.amount + a < U64_MOD)
    (h10 : (lookupReceipt st.receipts (receiptAddress b t)).isSome = true) :
    buy_pack rent b t a mk now st =
      ([.transferred a], .error .accountAlreadyInUse) := by
  unfold buy_pack
  rw [if_neg (Nat.not_lt.mpr h1), if_neg (Nat.pos_iff_ne_zero.mp h2),
    if_neg (not_not.mpr h3), if_neg (not_not.mpr h4), if_neg (not_not.mpr h5),
    if_neg (not_not.mpr h6), if_neg (not_not.mpr h7),
    if_neg (Nat.not_lt.mpr h8), if_neg (Nat.not_le.mpr h9), if_pos h10]

theorem buy_pack_noRent (rent : Nat → Nat) (b : Pubkey) (t : String)
    (a : Nat) (mk : Pubkey) (now : Int) (st : Chain)
    (h1 : seedByteLen t ≤ 32) (h2 : 0 < a) (h3 : mk = USDC_MINT)
    (h4 : st.treasuryUsdc.owner = TREASURY) (h5 : st.buyerUsdc.mint = mk)
    (h6 : st.buyerUsdc.owner = b) (h7 : st.treasuryUsdc.mint = mk)
    (h8 : a ≤ st.buyerUsdc.amount) (h9 : st.treasuryUsdc.amount + a < U64_MOD)
    (h10 : lookupReceipt st.receipts (receiptAddress b t) = none)
    (h11 : st.buyerLamports < rent RECEIPT_SPACE) :
    buy_pack rent b t a mk now st =
      ([.transferred a], .error .insufficientLamports) := by
  unfold buy_pack
  rw [if_neg (Nat.not_lt.mpr h1), if_neg (Nat.pos_iff_ne_zero.mp h2),
    if_neg (not_not.mpr h3), if_neg (not_not.mpr h4), if_neg (not_not.mpr h5),
    if_neg (not_not.mpr h6), if_neg (not_not.mpr h7),
    if_neg (Nat.not_lt.mpr h8), if_neg (Nat.not_le.mpr h9),
    if_neg (by simp [h10]), if_pos h11]

theorem buy_pack_ok_intro (rent : Nat → Nat) (b : Pubkey) (t : String) (a : Nat)
    (mk : Pubkey) (now : Int) (st : Chain)
    (h1 : seedByteLen t ≤ 32) (h2 : 0 < a) (h3 : mk = USDC_MINT)
    (h4 : st.treasuryUsdc.owner = TREASURY) (h5 : st.buyerUsdc.mint = mk)
    (h6 : st.buyerUsdc.owner = b) (h7 : st.treasuryUsdc.mint = mk)
    (h8 : a ≤ st.buyerUsdc.amount) (h9 : st.treasuryUsdc.amount + a < U64_MOD)
    (h10 : lookupReceipt st.receipts (receiptAddress b t) = none)
    (h11 : rent RECEIPT_SPACE ≤ st.buyerLamports) :
    buy_pack rent b t a mk now st =
      ([.transferred a, .allocated (receiptAddress b t)],
       .ok (successState rent b t a now st)) := by
  unfold buy_pack
  rw [if_neg (Nat.not_lt.mpr h1), if_neg (Nat.pos_iff_ne_zero.mp h2),
    if_neg (not_not.mpr h3), if_neg (not_not.mpr h4), if_neg (not_not.mpr h5),
    if_neg (not_not.mpr h6), if_neg (not_not.mpr h7),
    if_neg (Nat.not_lt.mpr h8), if_neg (Nat.not_le.mpr h9),
    if_neg (by simp [h10]), if_neg (Nat.not_lt.mpr h11)]
  rfl

theorem buy_pack_ok_elim (rent : Nat → Nat) (b : Pubkey) (t : String) (a : Nat)
    (mk : Pubkey) (now : Int) (st st' : Chain)
    (h : (buy_pack rent b t a mk now st).2 = .ok st') :
    seedByteLen t ≤ 32 ∧ 0 < a ∧ mk = USDC_MINT ∧
    st.treasuryUsdc.owner = TREASURY ∧ st.buyerUsdc.mint = mk ∧
    st.buyerUsdc.owner = b ∧ st.treasuryUsdc.mint = mk ∧
    a ≤ st.buyerUsdc.amount ∧ st.treasuryUsdc.amount + a < U64_MOD ∧
    lookupReceipt st.receipts (receiptAddress b t) = none ∧
    rent RECEIPT_SPACE ≤ st.buyerLamports ∧
    st' = successState rent b t a now st := by
  by_cases h1 : 32 < seedByteLen t
  · rw [buy_pack_seedTooLong rent b t a mk now st h1] at h
    exact absurd h (by simp)
  push_neg at h1
  by_cases h2 : a = 0
  · rw [buy_pack_zeroAmount rent b t a mk now st h1 h2] at h
    exact absurd h (by simp)
  have h2' : 0 < a := Nat.pos_of_ne_zero h2
  by_cases h3 : mk = USDC_MINT
  swap
  · rw [buy_pack_invalidMint rent b t a mk now st h1 h2' h3] at h
    exact absurd h (by simp)
  by_cases h4 : st.treasuryUsdc.owner = TREASURY
  swap
  · rw [buy_pack_invalidTreasury rent b t a mk now st h1 h2' h3 h4] at h
    exact absurd h (by simp)
  by_cases h5 : st.buyerUsdc.mint = mk
  swap
  · rw [buy_pack_badBuyerMint rent b t a mk now st h1 h2' h3 h4 h5] at h
    exact absurd h (by simp)
  by_cases h6 : st.buyerUsdc.owner = b
  swap
  · rw [buy_pack_badAuthority rent b t a mk now st h1 h2' h3 h4 h5 h6] at h
    exact absurd h (by simp)
  by_cases h7 : st.treasuryUsdc.mint = mk
  swap
  · rw [buy_pack_badTreasuryMint rent b t a mk now st h1 h2' h3 h4 h5 h6 h7] at h
    exact absurd h (by simp)
  by_cases h8 : st.buyerUsdc.amount < a
  · rw [buy_pack_insufficientFunds rent b t a mk now st h1 h2' h3 h4 h5 h6 h7 h8] at h
    exact absurd h (by simp)
  push_neg at h8
  by_cases h9 : U64_MOD ≤ st.treasuryUsdc.amount + a
  · rw [buy_pack_overflow rent b t a mk now st h1 h2' h3 h4 h5 h6 h7 h8 h9] at h
    exact absurd h (by simp)
  push_neg at h9
  by_cases h10 : (lookupReceipt st.receipts (receiptAddress b t)).isSome = true
  · rw [buy_pack_alreadyInUse rent b t a mk now st h1 h2' h3 h4 h5 h6 h7 h8 h9 h10] at h
    exact absurd h (by simp)
  have h10' : lookupReceipt st.receipts (receiptAddress b t) = none := by
    cases hl : lookupReceipt st.receipts (receiptAddress b t) with
    | none => rfl
    | some r => exact absurd (by rw [hl]; rfl) h10
  by_cases h11 : st.buyerLamports < rent RECEIPT_SPACE
  · rw [buy_pack_noRent rent b t a mk now st h1 h2' h3 h4 h5 h6 h7 h8 h9 h10' h11] at h
    exact absurd h (by simp)
  push_neg at h11
  rw [buy_pack_ok_intro rent b t a mk now st h1 h2' h3 h4 h5 h6 h7 h8 h9 h10' h11] at h
  simp only [Except.ok.injEq] at h
  exact ⟨h1, h2', h3, h4, h5, h6, h7, h8, h9, h10', h11, h.symm⟩

theorem lookupReceipt_none_count (rs : List (PdaAddress × PurchaseReceipt))
    (a : PdaAddress) (h : lookupReceipt rs a = none) : receiptCount rs a = 0 := by
  induction rs with
  | nil => rfl
  | cons p rest ih =>
    obtain ⟨a₁, r⟩ := p
    unfold lookupReceipt at h
    by_cases hpa : a₁ = a
    · simp [hpa] at h
    · rw [if_neg hpa] at h
      simpa [receiptCount, List.countP_cons, hpa] using ih h

/-- C1: for a buyer B and correlation tag T, at most one receipt can ever
exist for the pair: after a successful purchase for (B, T) exactly one
receipt is committed at the derived address, and a second well-formed
request with the same pair — which, per the serialization guarantee, runs
after the first whether submitted concurrently or sequentially — fails
with the address-collision error and causes no additional balance
change. -/
theorem C1_unique_receipt (rent₁ rent₂ : Nat → Nat) (b : Pubkey) (t : String)
    (a₁ a₂ : Nat) (mk₁ mk₂ : Pubkey) (now₁ now₂ : Int) (st₁ st₂ : Chain)
    (h1 : (buy_pack rent₁ b t a₁ mk₁ now₁ st₁).2 = .ok st₂)
    (h2 : 0 < a₂) (h3 : mk₂ = USDC_MINT)
    (h4 : a₂ ≤ st₂.buyerUsdc.amount)
    (h5 : st₂.treasuryUsdc.amount + a₂ < U64_MOD) :
    receiptCount st₂.receipts (receiptAddress b t) = 1 ∧
    buy_pack rent₂ b t a₂ mk₂ now₂ st₂ =
      ([.transferred a₂], .error .accountAlreadyInUse) ∧
    commit st₂ (buy_pack rent₂ b t a₂ mk₂ now₂ st₂) = st₂ := by
  obtain ⟨g1, g2, g3, g4, g5, g6, g7, g8, g9, g10, g11, g12⟩ :=
    buy_pack_ok_elim rent₁ b t a₁ mk₁ now₁ st₁ st₂ h1
  subst g12
  have hrun := buy_pack_alreadyInUse rent₂ b t a₂ mk₂ now₂
    (successState rent₁ b t a₁ now₁ st₁) g1 h2 h3
    (by simpa [successState] using g4)
    (by simp [successState, g5, g3, h3])
    (by simpa [successState] using g6)
    (by simp [successState, g7, g3, h3])
    h4 h5
    (by simp [successState, lookupReceipt])
  refine ⟨?_, hrun, by rw [hrun]; rfl⟩
  have h0 : receiptCount st₁.receipts (receiptAddress b t) = 0 :=
    lookupReceipt_none_count _ _ g10
  show receiptCount ((receiptAddress b t, _) :: st₁.receipts) (receiptAddress b t) = 1
  unfold receiptCount at h0 ⊢
  rw [List.countP_cons, h0]
  simp

/-- Witness for C1: the demo purchase of 40 USDC with tag "order-1"
followed by a second attempt of 10 USDC with the same pair. -/
theorem C1_unique_receipt_witness :
    receiptCount demoState₂.receipts (receiptAddress demoBuyer "order-1") = 1 ∧
    buy_pack demoRent demoBuyer "order-1" 10 USDC_MINT 1700000050 demoState₂ =
      ([.transferred 10], .error .accountAlreadyInUse) ∧
    commit demoState₂
      (buy_pack demoRent demoBuyer "order-1" 10 USDC_MINT 1700000050 demoState₂) =
      demoState₂ :=
  C1_unique_receipt demoRent demoRent demoBuyer "order-1" 40 10 USDC_MINT
    USDC_MINT 1700000000 1700000050 demoState demoState₂ rfl (by decide) rfl
    (by decide) (by decide)

/-- C2: the receipt address is a pure deterministic function of
(buyer, correlation tag) with the fixed domain constant: equal pairs give
equal addresses and bumps, and recomputing the derivation after a
successful purchase yields exactly the address the receipt is stored at
and the bump recorded inside it. -/
theorem C2_deterministic_derivation (b₁ b₂ : Pubkey) (t₁ t₂ : String)
    (hb : b₁ = b₂) (ht : t₁ = t₂) :
    receiptAddress b₁ t₁ = receiptAddress b₂ t₂ ∧
    receiptBump b₁ t₁ = receiptBump b₂ t₂ ∧
    ∀ rent a mk now st st',
      (buy_pack rent b₁ t₁ a mk now st).2 = .ok st' →
      lookupReceipt st'.receipts (receiptAddress b₂ t₂) =
        some { buyer := b₁, amount := a, client_seed := t₁,
               timestamp := now, bump := receiptBump b₂ t₂ } := by
  subst hb
  subst ht
  refine ⟨rfl, rfl, ?_⟩
  intro rent a mk now st st' h
  obtain ⟨-, -, -, -, -, -, -, -, -, -, -, g12⟩ :=
    buy_pack_ok_elim rent b₁ t₁ a mk now st st' h
  subst g12
  simp [successState, lookupReceipt]

/-- Witness for C2: the recomputed address and bump match the receipt
stored by the demo purchase. -/
theorem C2_deterministic_derivation_witness :
    lookupReceipt demoState₂.receipts (receiptAddress demoBuyer "order-1") =
      some { buyer := demoBuyer, amount := 40, client_seed := "order-1",
             timestamp := 1700000000, bump := receiptBump demoBuyer "order-1" } :=
  (C2_deterministic_derivation demoBuyer demoBuyer "order-1" "order-1" rfl
    rfl).2.2 demoRent 40 USDC_MINT 1700000000 demoState demoState₂ rfl

/-- C3: within one invocation the token transfer executes before the
uniqueness check at the derived address resolves: when allocation fails
because the address is occupied, the transfer event is already in the
trace and the all-or-nothing commit discards it; on success the transfer
event precedes the allocation event. -/
theorem C3_transfer_before_allocation (rent : Nat → Nat) (b : Pubkey)
    (t : String) (a : Nat) (mk : Pubkey) (now : Int) (st : Chain) :
    ((buy_pack rent b t a mk now st).2 = .error .accountAlreadyInUse →
      (buy_pack rent b t a mk now st).1 = [.transferred a] ∧
      commit st (buy_pack rent b t a mk now st) = st) ∧
    (∀ st', (buy_pack rent b t a mk now st).2 = .ok st' →
      (buy_pack rent b t a mk now st).1 =
        [.transferred a, .allocated (receiptAddress b t)]) := by
  constructor
  · intro h
    by_cases h1 : 32 < seedByteLen t
    · rw [buy_pack_seedTooLong rent b t a mk now st h1] at h
      exact absurd h (by simp)
    push_neg at h1
    by_cases h2 : a = 0
    · rw [buy_pack_zeroAmount rent b t a mk now st h1 h2] at h
      exact absurd h (by simp)
    have h2' : 0 < a := Nat.pos_of_ne_zero h2
    by_cases h3 : mk = USDC_MINT
    swap
    · rw [buy_pack_invalidMint rent b t a mk now st h1 h2' h3] at h
      exact absurd h (by simp)
    by_cases h4 : st.treasuryUsdc.owner = TREASURY
    swap
    · rw [buy_pack_invalidTreasury rent b t a mk now st h1 h2' h3 h4] at h
      exact absurd h (by simp)
    by_cases h5 : st.buyerUsdc.mint = mk
    swap
    · rw [buy_pack_badBuyerMint rent b t a mk now st h1 h2' h3 h4 h5] at h
      exact absurd h (by simp)
    by_cases h6 : st.buyerUsdc.owner = b
    swap
    · rw [buy_pack_badAuthority rent b t a mk now st h1 h2' h3 h4 h5 h6] at h
      exact absurd h (by simp)
    by_cases h7 : st.treasuryUsdc.mint = mk
    swap
    · rw [buy_pack_badTreasuryMint rent b t a mk now st h1 h2' h3 h4 h5 h6 h7] at h
      exact absurd h (by simp)
    by_cases h8 : st.buyerUsdc.amount < a
    · rw [buy_pack_insufficientFunds rent b t a mk now st h1 h2' h3 h4 h5 h6 h7 h8] at h
      exact absurd h (by simp)
    push_neg at h8
    by_cases h9 : U64_MOD ≤ st.treasuryUsdc.amount + a
    · rw [buy_pack_overflow rent b t a mk now st h1 h2' h3 h4 h5 h6 h7 h8 h9] at h
      exact absurd h (by simp)
    push_neg at h9
    by_cases h10 : (lookupReceipt st.receipts (receiptAddress b t)).isSome = true
    · have e := buy_pack_alreadyInUse rent b t a mk now st h1 h2' h3 h4 h5 h6 h7 h8 h9 h10
      rw [e]
      exact ⟨rfl, rfl⟩
    have h10' : lookupReceipt st.receipts (receiptAddress b t) = none := by
      cases hl : lookupReceipt st.receipts (receiptAddress b t) with
      | none => rfl
      | some r => exact absurd (by rw [hl]; rfl) h10
    by_cases h11 : st.buyerLamports < rent RECEIPT_SPACE
    · rw [buy_pack_noRent rent b t a mk now st h1 h2' h3 h4 h5 h6 h7 h8 h9 h10' h11] at h
      exact absurd h (by simp)
    push_neg at h11
    rw [buy_pack_ok_intro rent b t a mk now st h1 h2' h3 h4 h5 h6 h7 h8 h9 h10' h11] at h
    exact absurd h (by simp)
  · intro st' h
    obtain ⟨g1, g2, g3, g4, g5, g6, g7, g8, g9, g10, g11, -⟩ :=
      buy_pack_ok_elim rent b t a mk now st st' h
    rw [buy_pack_ok_intro rent b t a mk now st g1 g2 g3 g4 g5 g6 g7 g8 g9 g10 g11]

/-- Witness for C3: retrying the demo purchase against the committed
state runs the transfer, then fails the allocation, and commits nothing. -/
theorem C3_transfer_before_allocation_witness :
    (buy_pack demoRent demoBuyer "order-1" 10 USDC_MINT 1700000100 demoState₂).1 =
      [.transferred 10] ∧
    commit demoState₂
      (buy_pack demoRent demoBuyer "order-1" 10 USDC_MINT 1700000100 demoState₂) =
      demoState₂ :=
  (C3_transfer_before_allocation demoRent demoBuyer "order-1" 10 USDC_MINT
    1700000100 demoState₂).1 rfl

/-- C4: the validator's four checks run in the order tag-length, amount,
mint identity, treasury identity — the first failing check decides the
error; a failing check produces no side-effecting event and leaves the
committed state unchanged; and all four must have passed before the
transfer step executes. -/
theorem C4_validator_order (rent : Nat → Nat) (b : Pubkey) (t : String)
    (a : Nat) (mk : Pubkey) (now : Int) (st : Chain) :
    (32 < seedByteLen t →
      buy_pack rent b t a mk now st = ([], .error (.program .SeedTooLong))) ∧
    (seedByteLen t ≤ 32 → a = 0 →
      buy_pack rent b t a mk now st = ([], .error (.program .ZeroAmount))) ∧
    (seedByteLen t ≤ 32 → 0 < a → mk ≠ USDC_MINT →
      buy_pack rent b t a mk now st = ([], .error (.program .InvalidMint))) ∧
    (seedByteLen t ≤ 32 → 0 < a → mk = USDC_MINT →
      st.treasuryUsdc.owner ≠ TREASURY →
      buy_pack rent b t a mk now st = ([], .error (.program .InvalidTreasury))) ∧
    (∀ e, buy_pack rent b t a mk now st = ([], .error e) →
      commit st (buy_pack rent b t a mk now st) = st) ∧
    (.transferred a ∈ (buy_pack rent b t a mk now st).1 →
      seedByteLen t ≤ 32 ∧ 0 < a ∧ mk = USDC_MINT ∧
      st.treasuryUsdc.owner = TREASURY) := by
  refine ⟨fun h1 => buy_pack_seedTooLong rent b t a mk now st h1,
    fun h1 h2 => buy_pack_zeroAmount rent b t a mk now st h1 h2,
    fun h1 h2 h3 => buy_pack_invalidMint rent b t a mk now st h1 h2 h3,
    fun h1 h2 h3 h4 => buy_pack_invalidTreasury rent b t a mk now st h1 h2 h3 h4,
    fun e h => by simp [commit, h], ?_⟩
  intro hmem
  by_cases h1 : 32 < seedByteLen t
  · rw [buy_pack_seedTooLong rent b t a mk now st h1] at hmem
    simp at hmem
  push_neg at h1
  by_cases h2 : a = 0
  · rw [buy_pack_zeroAmount rent b t a mk now st h1 h2] at hmem
    simp at hmem
  have h2' : 0 < a := Nat.pos_of_ne_zero h2
  by_cases h3 : mk = USDC_MINT
  swap
  · rw [buy_pack_invalidMint rent b t a mk now st h1 h2' h3] at hmem
    simp at hmem
  by_cases h4 : st.treasuryUsdc.owner = TREASURY
  swap
  · rw [buy_pack_invalidTreasury rent b t a mk now st h1 h2' h3 h4] at hmem
    simp at hmem
  exact ⟨h1, h2', h3, h4⟩

/-- Witness for C4: with a 33-byte tag and a zero amount together, the
tag-length check fires first. -/
theorem C4_validator_order_witness :
    buy_pack demoRent demoBuyer longTag 0 USDC_MINT 0 demoState =
      ([], .error (.program .SeedTooLong)) :=
  (C4_validator_order demoRent demoBuyer longTag 0 USDC_MINT 0 demoState).1
    (by decide)

/-- C5: a correlation tag longer than 32 bytes always fails with
SeedTooLong, with no balance change and no receipt; the outcome is
decided before any balance or account is read, so it is identical in
every ledger state. -/
theorem C5_seed_too_long (rent : Nat → Nat) (b : Pubkey) (t : String)
    (a : Nat) (mk : Pubkey) (now : Int) (st st₁ : Chain)
    (h : 32 < seedByteLen t) :
    buy_pack rent b t a mk now st = ([], .error (.program .SeedTooLong)) ∧
    commit st (buy_pack rent b t a mk now st) = st ∧
    buy_pack rent b t a mk now st = buy_pack rent b t a mk now st₁ := by
  have e1 := buy_pack_seedTooLong rent b t a mk now st h
  have e2 := buy_pack_seedTooLong rent b t a mk now st₁ h
  exact ⟨e1, by simp [commit, e1], by rw [e1, e2]⟩

/-- Witness for C5: a 33-byte tag is rejected with SeedTooLong. -/
theorem C5_seed_too_long_witness :
    buy_pack demoRent demoBuyer longTag 40 USDC_MINT 0 demoState =
      ([], .error (.program .SeedTooLong)) :=
  (C5_seed_too_long demoRent demoBuyer longTag 40 USDC_MINT 0 demoState
    demoState₂ (by decide)).1

/-- C6 as stated is false on the code: a request with amount 0 and a
33-byte tag fails with SeedTooLong, not ZeroAmount, because the
tag-length check runs first. -/
theorem C6_zero_amount_counterexample :
    (buy_pack demoRent demoBuyer longTag 0 USDC_MINT 0 demoState).2 =
      .error (.program .SeedTooLong) ∧
    TxError.program .SeedTooLong ≠ TxError.program .ZeroAmount :=
  ⟨rfl, by decide⟩

/-- C6 amended: every request with amount 0 whose tag is within the
32-byte bound fails with ZeroAmount and has no side effects; conversely a
receipt is only ever created for a strictly positive amount. -/
theorem C6_zero_amount (rent : Nat → Nat) (b : Pubkey) (t : String)
    (mk : Pubkey) (now : Int) (st : Chain) :
    (seedByteLen t ≤ 32 →
      buy_pack rent b t 0 mk now st = ([], .error (.program .ZeroAmount)) ∧
      commit st (buy_pack rent b t 0 mk now st) = st) ∧
    (∀ a st', (buy_pack rent b t a mk now st).2 = .ok st' → 0 < a) := by
  constructor
  · intro h1
    have e := buy_pack_zeroAmount rent b t 0 mk now st h1 rfl
    exact ⟨e, by simp [commit, e]⟩
  · intro a st' h
    exact (buy_pack_ok_elim rent b t a mk now st st' h).2.1

/-- Witness for C6: a zero-amount request with a short tag fails with
ZeroAmount and changes nothing. -/
theorem C6_zero_amount_witness :
    buy_pack demoRent demoBuyer "order-1" 0 USDC_MINT 0 demoState =
      ([], .error (.program .ZeroAmount)) ∧
    commit demoState
      (buy_pack demoRent demoBuyer "order-1" 0 USDC_MINT 0 demoState) =
      demoState :=
  (C6_zero_amount demoRent demoBuyer "order-1" USDC_MINT 0 demoState).1
    (by decide)

/-- C7 as stated is false on the code: a request that both references a
non-canonical mint and names a treasury account with a non-canonical
owner fails with a single error — here InvalidMint, the earlier check —
so it does not fail with InvalidTreasury as the claim requires of every
request with a bad treasury owner. -/
theorem C7_identity_counterexample :
    (buy_pack demoRent demoBuyer "order-1" 40 bogusMint 0 demoStateBadOwner).2 =
      .error (.program .InvalidMint) ∧
    demoStateBadOwner.treasuryUsdc.owner ≠ TREASURY ∧
    TxError.program .InvalidMint ≠ TxError.program .InvalidTreasury :=
  ⟨rfl, by decide, by decide⟩

/-- C7 amended: the canonical identities are the fixed compile-time
constants USDC_MINT and TREASURY; a structurally valid request (tag ≤ 32
bytes, amount > 0) referencing any other mint key fails with InvalidMint,
and one referencing the canonical mint whose treasury account is owned by
anyone other than the canonical treasury fails with InvalidTreasury — in
both cases with no side effects. -/
theorem C7_identity_checks (rent : Nat → Nat) (b : Pubkey) (t : String)
    (a : Nat) (mk : Pubkey) (now : Int) (st : Chain)
    (h1 : seedByteLen t ≤ 32) (h2 : 0 < a) :
    (mk ≠ USDC_MINT →
      buy_pack rent b t a mk now st = ([], .error (.program .InvalidMint)) ∧
      commit st (buy_pack rent b t a mk now st) = st) ∧
    (mk = USDC_MINT → st.treasuryUsdc.owner ≠ TREASURY →
      buy_pack rent b t a mk now st = ([], .error (.program .InvalidTreasury)) ∧
      commit st (buy_pack rent b t a mk now st) = st) := by
  constructor
  · intro h3
    have e := buy_pack_invalidMint rent b t a mk now st h1 h2 h3
    exact ⟨e, by simp [commit, e]⟩
  · intro h3 h4
    have e := buy_pack_invalidTreasury rent b t a mk now st h1 h2 h3 h4
    exact ⟨e, by simp [commit, e]⟩

/-- Witness for C7: a well-formed request naming a bogus mint fails with
InvalidMint and changes nothing. -/
theorem C7_identity_checks_witness :
    buy_pack demoRent demoBuyer "order-1" 40 bogusMint 0 demoState =
      ([], .error (.program .InvalidMint)) ∧
    commit demoState
      (buy_pack demoRent demoBuyer "order-1" 40 bogusMint 0 demoState) =
      demoState :=
  (C7_identity_checks demoRent demoBuyer "order-1" 40 bogusMint 0 demoState
    (by decide) (by decide)).1 (by decide)

/-- C8: on success the committed receipt is populated with the signing
buyer, the requested amount, the caller-supplied tag verbatim, the
commit-time clock, and the bump from the address derivation, allocated at
the derived address on top of the previous receipts. -/
theorem C8_receipt_fields (rent : Nat → Nat) (b : Pubkey) (t : String)
    (a : Nat) (mk : Pubkey) (now : Int) (st st' : Chain)
    (h : (buy_pack rent b t a mk now st).2 = .ok st') :
    st'.receipts =
      (receiptAddress b t,
        { buyer := b, amount := a, client_seed := t, timestamp := now,
          bump := receiptBump b t }) :: st.receipts := by
  obtain ⟨-, -, -, -, -, -, -, -, -, -, -, g12⟩ :=
    buy_pack_ok_elim rent b t a mk now st st' h
  rw [g12]
  rfl

/-- Witness for C8: the demo purchase stores exactly the expected
receipt. -/
theorem C8_receipt_fields_witness :
    demoState₂.receipts =
      (receiptAddress demoBuyer "order-1",
        { buyer := demoBuyer, amount := 40, client_seed := "order-1",
          timestamp := 1700000000,
          bump := receiptBump demoBuyer "order-1" }) :: demoState.receipts :=
  C8_receipt_fields demoRent demoBuyer "order-1" 40 USDC_MINT 1700000000
    demoState demoState₂ rfl

/-- C9: the empty string is an accepted correlation tag: the length check
is only an upper bound (the empty tag has length 0), a well-formed
purchase with the empty tag succeeds and stores the empty tag verbatim,
and its derived address is a function of the buyer alone. -/
theorem C9_empty_tag (rent : Nat → Nat) (b : Pubkey) (a : Nat) (mk : Pubkey)
    (now : Int) (st : Chain)
    (h2 : 0 < a) (h3 : mk = USDC_MINT) (h4 : st.treasuryUsdc.owner = TREASURY)
    (h5 : st.buyerUsdc.mint = mk) (h6 : st.buyerUsdc.owner = b)
    (h7 : st.treasuryUsdc.mint = mk) (h8 : a ≤ st.buyerUsdc.amount)
    (h9 : st.treasuryUsdc.amount + a < U64_MOD)
    (h10 : lookupReceipt st.receipts (receiptAddress b "") = none)
    (h11 : rent RECEIPT_SPACE ≤ st.buyerLamports) :
    seedByteLen "" = 0 ∧
    (buy_pack rent b "" a mk now st).2 = .ok (successState rent b "" a now st) ∧
    lookupReceipt (successState rent b "" a now st).receipts (receiptAddress b "") =
      some { buyer := b, amount := a, client_seed := "", timestamp := now,
             bump := receiptBump b "" } ∧
    receiptAddress b "" = emptyTagAddress b := by
  have e := buy_pack_ok_intro rent b "" a mk now st (by decide) h2 h3 h4 h5 h6
    h7 h8 h9 h10 h11
  refine ⟨rfl, by rw [e], ?_, rfl⟩
  simp [successState, lookupReceipt]

/-- Witness for C9: the demo purchase with the empty tag succeeds and
stores the empty tag. -/
theorem C9_empty_tag_witness :
    seedByteLen "" = 0 ∧
    (buy_pack demoRent demoBuyer "" 40 USDC_MINT 1700000000 demoState).2 =
      .ok (successState demoRent demoBuyer "" 40 1700000000 demoState) ∧
    lookupReceipt (successState demoRent demoBuyer "" 40 1700000000 demoState).receipts
        (receiptAddress demoBuyer "") =
      some { buyer := demoBuyer, amount := 40, client_seed := "",
             timestamp := 1700000000, bump := receiptBump demoBuyer "" } ∧
    receiptAddress demoBuyer "" = emptyTagAddress demoBuyer :=
  C9_empty_tag demoRent demoBuyer 40 USDC_MINT 1700000000 demoState
    (by decide) rfl rfl rfl rfl rfl (by decide) (by decide) rfl (by decide)

/-- C10: on success the signing buyer also pays the storage allocation:
besides the token balance dropping by the amount, the buyer's lamport
balance drops by the rent cost of the fixed-size 93-byte receipt record,
the buyer had that rent available, and no other account's lamports
change. -/
theorem C10_buyer_pays_rent (rent : Nat → Nat) (b : Pubkey) (t : String)
    (a : Nat) (mk : Pubkey) (now : Int) (st st' : Chain)
    (h : (buy_pack rent b t a mk now st).2 = .ok st') :
    RECEIPT_SPACE = 93 ∧
    st'.buyerLamports = st.buyerLamports - rent RECEIPT_SPACE ∧
    rent RECEIPT_SPACE ≤ st.buyerLamports ∧
    st'.otherLamports = st.otherLamports ∧
    st'.buyerUsdc.amount = st.buyerUsdc.amount - a := by
  obtain ⟨-, -, -, -, -, -, -, -, -, -, g11, g12⟩ :=
    buy_pack_ok_elim rent b t a mk now st st' h
  subst g12
  exact ⟨rfl, rfl, g11, rfl, rfl⟩

/-- Witness for C10: the demo purchase charges the buyer 93 lamports of
rent and 40 USDC, leaving every other lamport balance unchanged. -/
theorem C10_buyer_pays_rent_witness :
    RECEIPT_SPACE = 93 ∧
    demoState₂.buyerLamports = demoState.buyerLamports - demoRent RECEIPT_SPACE ∧
    demoRent RECEIPT_SPACE ≤ demoState.buyerLamports ∧
    demoState₂.otherLamports = demoState.otherLamports ∧
    demoState₂.buyerUsdc.amount = demoState.buyerUsdc.amount - 40 :=
  C10_buyer_pays_rent demoRent demoBuyer "order-1" 40 USDC_MINT 1700000000
    demoState demoState₂ rfl

end Polydraft
